import Mathlib

/-!
Verification of the Smart-Farm IoT sensor simulator
(`src/simulator/sensor_simulator.py`, namespace `Sim0`, and
`src/simulator/sensor_simulator1.py`, namespace `Sim1`).

Modelling choices:
* Measurement values are real numbers (`ℝ`); Python floats are modelled
  exactly, so the definitions using real arithmetic and `Real.sin` are
  `noncomputable`.
* The pseudo-random draws of `random.uniform(a, b)` and `random.random()`
  are passed in explicitly: either as single real arguments, or as a
  stream `g : ℕ → ℝ` together with an index that each draw advances.
  Hypotheses of theorems constrain a draw to the range of the
  corresponding `uniform` call where the property needs it.
* `datetime.now().isoformat()` timestamps are opaque strings supplied by
  the environment (one per tick).
* MQTT publishes are modelled as a trace of messages (`Msg`).
-/

open scoped Classical

namespace SmartFarm

/-- Python's `round(x, 2)`: round to two decimal places, ties to even
(the payload fields are built with `round(value, 2)`). -/
noncomputable def pyRound2 (x : ℝ) : ℝ :=
  (if Int.fract (100 * x) = 1 / 2 then
    (if ⌊100 * x⌋ % 2 = 0 then (⌊100 * x⌋ : ℝ) else (⌊100 * x⌋ : ℝ) + 1)
  else (round (100 * x) : ℝ)) / 100

/-- `round(·, 2)` never drops below a bound that is a multiple of `1/100`. -/
theorem le_pyRound2 {x : ℝ} (lo : ℝ) (a : ℤ) (ha : lo * 100 = (a : ℝ))
    (h : lo ≤ x) : lo ≤ pyRound2 x := by
  have hax : (a : ℝ) ≤ 100 * x := by nlinarith
  have hfl : (a : ℝ) ≤ (⌊100 * x⌋ : ℝ) := by
    exact_mod_cast Int.le_floor.mpr hax
  unfold pyRound2
  split_ifs with hhalf heven
  · linarith
  · linarith
  · have hr : (a : ℝ) ≤ (round (100 * x) : ℝ) := by
      have : a ≤ round (100 * x) := by
        rw [round_eq]
        exact Int.le_floor.mpr (by linarith)
      exact_mod_cast this
    linarith

/-- `round(·, 2)` never exceeds a bound that is a multiple of `1/100`. -/
theorem pyRound2_le {x : ℝ} (hi : ℝ) (b : ℤ) (hb : hi * 100 = (b : ℝ))
    (h : x ≤ hi) : pyRound2 x ≤ hi := by
  have hxb : 100 * x ≤ (b : ℝ) := by nlinarith
  have hfl : ((⌊100 * x⌋ : ℤ) : ℝ) ≤ (b : ℝ) := le_trans (Int.floor_le _) hxb
  unfold pyRound2
  split_ifs with hhalf heven
  · linarith
  · have hx_eq : ((⌊100 * x⌋ : ℤ) : ℝ) + 1 / 2 = 100 * x := by
      have hsum := Int.floor_add_fract (100 * x)
      rw [hhalf] at hsum
      linarith
    have hlt : ((⌊100 * x⌋ : ℤ) : ℝ) < (b : ℝ) := by linarith
    have hle : ⌊100 * x⌋ + 1 ≤ b := Int.add_one_le_iff.mpr (by exact_mod_cast hlt)
    have hle' : ((⌊100 * x⌋ : ℤ) : ℝ) + 1 ≤ (b : ℝ) := by exact_mod_cast hle
    linarith
  · have hrd : round (100 * x) ≤ b := by
      rw [round_eq]
      have h1 : (100 * x + 1 / 2 : ℝ) ≤ (b : ℝ) + 1 / 2 := by linarith
      have h2 : ⌊(100 * x + 1 / 2 : ℝ)⌋ ≤ ⌊((b : ℝ) + 1 / 2 : ℝ)⌋ :=
        Int.floor_mono h1
      have h3 : ⌊((b : ℝ) + 1 / 2 : ℝ)⌋ = b := by
        rw [add_comm, Int.floor_add_int]
        norm_num [Int.floor_eq_zero_iff, Set.mem_Ico]
      rw [h3] at h2
      exact h2
    have hrd' : ((round (100 * x) : ℤ) : ℝ) ≤ (b : ℝ) := by exact_mod_cast hrd
    linarith

/-- The mutable per-sensor-kind simulation state set up in
`SensorSimulator.__init__` (identical in both source files). -/
structure SimState where
  base_temperature : ℝ
  base_humidity : ℝ
  soil_moisture : ℝ
  light_intensity : ℝ
  ph_level : ℝ

/-- The fresh state created by `SensorSimulator.__init__`. -/
noncomputable def initState : SimState :=
  { base_temperature := 28.0
    base_humidity := 65.0
    soil_moisture := 50.0
    light_intensity := 10000.0
    ph_level := 6.5 }

/-- A JSON scalar as it appears in the simulator's flat payloads. -/
inductive JsonVal where
  | num (x : ℝ)
  | str (s : String)
  | int (n : ℤ)

/-- A flat JSON object: the wire payload of one reading or status event. -/
abbrev Payload := List (String × JsonVal)

/-- Field lookup in a flat JSON object. -/
def getField : Payload → String → Option JsonVal
  | [], _ => none
  | (k, v) :: rest, key => if k = key then some v else getField rest key

/-- A configured virtual device, as in the `devices` rosters of both
`main` functions. -/
structure Device where
  id : String
  type : String
  location : String

/-- One MQTT publish: either a status event on `device/{id}/status` or a
reading on `sensor/{id}/data`. -/
inductive Msg where
  | status (deviceId : String) (st : String)
  | data (deviceId : String) (payload : Payload)

/-- Python's float `%` operator for a positive modulus:
`x % m = x - m * floor(x / m)`. -/
noncomputable def floatMod (x m : ℝ) : ℝ := x - m * (⌊x / m⌋ : ℝ)

/-- The pre-clamp soil-moisture value of one `simulate_soil_moisture`
tick: the previous stored value minus the decay draw, plus the irrigation
jump draw when the irrigation event fires. -/
noncomputable def soil_moisture_preclamp (prev d j : ℝ) (event : Bool) : ℝ :=
  if event then prev - d + j else prev - d

namespace Sim0

/-- `SensorSimulator.get_time_factor` of `sensor_simulator.py`:
`elapsed` seconds since start, `hour_of_day = (elapsed / 60) % 24`. -/
noncomputable def get_time_factor (elapsed : ℝ) : ℝ :=
  floatMod (elapsed / 60) 24

/-- `SensorSimulator.simulate_dht22`: the noise draws
`uniform(-1, 1)` and `uniform(-3, 3)` are `t_noise` and `h_noise`. -/
noncomputable def simulate_dht22 (st : SimState) (hour t_noise h_noise : ℝ)
    (device_id ts : String) : Payload :=
  let temp_variation := 5 * Real.sin ((hour - 6) * Real.pi / 12)
  let temperature := st.base_temperature + temp_variation + t_noise
  let humidity0 := st.base_humidity - temp_variation * 2 + h_noise
  let humidity := max 30 (min 95 humidity0)
  [("deviceId", JsonVal.str device_id),
   ("sensorType", JsonVal.str "DHT22"),
   ("temperature", JsonVal.num (pyRound2 temperature)),
   ("humidity", JsonVal.num (pyRound2 humidity)),
   ("timestamp", JsonVal.str ts)]

/-- `SensorSimulator.simulate_soil_moisture`: draw `g k` is
`uniform(0.05, 0.15)`, draw `g (k+1)` is `random()` tested against
`0.02`, draw `g (k+2)` (consumed only when the event fires) is
`uniform(15, 25)`.  Returns the payload, the updated state, and the next
stream index. -/
noncomputable def simulate_soil_moisture (st : SimState)
    (device_id ts : String) (g : ℕ → ℝ) (k : ℕ) :
    Payload × SimState × ℕ :=
  let m1 := st.soil_moisture - g k
  let ek := if g (k + 1) < 0.02 then (m1 + g (k + 2), k + 3) else (m1, k + 2)
  let m3 := max 20 (min 70 ek.1)
  ([("deviceId", JsonVal.str device_id),
    ("sensorType", JsonVal.str "SOIL_MOISTURE"),
    ("soilMoisture", JsonVal.num (pyRound2 m3)),
    ("timestamp", JsonVal.str ts)],
   { st with soil_moisture := m3 }, ek.2)

/-- `SensorSimulator.simulate_light_sensor`: `noise` is the single draw
of the executed branch — `uniform(-2000, 2000)` during daytime
(`6 <= hour <= 18`), `uniform(0, 100)` at night. -/
noncomputable def simulate_light_sensor (st : SimState) (hour : ℝ)
    (device_id ts : String) (noise : ℝ) : Payload × SimState :=
  let li :=
    if 6 ≤ hour ∧ hour ≤ 18 then
      50000 * Real.sin ((hour - 6) * Real.pi / 12) + noise
    else noise
  let li2 := max 0 li
  ([("deviceId", JsonVal.str device_id),
    ("sensorType", JsonVal.str "LIGHT"),
    ("lightIntensity", JsonVal.num (pyRound2 li2)),
    ("timestamp", JsonVal.str ts)],
   { st with light_intensity := li2 })

/-- `SensorSimulator.simulate_ph_sensor` of `sensor_simulator.py`:
`noise` is the draw of `uniform(-0.02, 0.02)`; the measurement field is
named `"ph"` in this file. -/
noncomputable def simulate_ph_sensor (st : SimState)
    (device_id ts : String) (noise : ℝ) : Payload × SimState :=
  let ph1 := st.ph_level + noise
  let ph2 := max 5.5 (min 7.5 ph1)
  ([("deviceId", JsonVal.str device_id),
    ("sensorType", JsonVal.str "PH"),
    ("ph", JsonVal.num (pyRound2 ph2)),
    ("timestamp", JsonVal.str ts)],
   { st with ph_level := ph2 })

/-- The body of the per-device dispatch in `run_simulation`'s loop:
unknown sensor kinds fall through to `continue`, producing no payload and
leaving the state and the draw stream untouched. -/
noncomputable def step_device (st : SimState) (hour : ℝ) (g : ℕ → ℝ)
    (k : ℕ) (ts : String) (d : Device) :
    Option Payload × SimState × ℕ :=
  if d.type = "DHT22" then
    (some (simulate_dht22 st hour (g k) (g (k + 1)) d.id ts), st, k + 2)
  else if d.type = "SOIL_MOISTURE" then
    let r := simulate_soil_moisture st d.id ts g k
    (some r.1, r.2.1, r.2.2)
  else if d.type = "LIGHT" then
    let r := simulate_light_sensor st hour d.id ts (g k)
    (some r.1, r.2, k + 1)
  else if d.type = "PH" then
    let r := simulate_ph_sensor st d.id ts (g k)
    (some r.1, r.2, k + 1)
  else (none, st, k)

/-- One iteration of the `while True` loop over the device roster:
readings that are produced are published on `sensor/{id}/data`. -/
noncomputable def tick (hour : ℝ) (g : ℕ → ℝ) (ts : String) :
    List Device → SimState → ℕ → List Msg × SimState × ℕ
  | [], st, k => ([], st, k)
  | d :: rest, st, k =>
    let r := step_device st hour g k ts d
    let more := tick hour g ts rest r.2.1 r.2.2
    ((r.1.map (Msg.data d.id)).toList ++ more.1, more.2.1, more.2.2)

/-- The iterations of the `while True` loop that complete before the
`KeyboardInterrupt`.  `times i` is the elapsed wall-clock time at
iteration `i`, `tss i` the timestamp string of iteration `i`. -/
noncomputable def run_ticks (devices : List Device) (times : ℕ → ℝ)
    (tss : ℕ → String) (g : ℕ → ℝ) :
    List ℕ → SimState → ℕ → List Msg × SimState × ℕ
  | [], st, k => ([], st, k)
  | i :: rest, st, k =>
    let r := tick (get_time_factor (times i)) g (tss i) devices st k
    let more := run_ticks devices times tss g rest r.2.1 r.2.2
    (r.1 ++ more.1, more.2.1, more.2.2)

/-- `SensorSimulator.connect`'s wait loop, discretised into the 0.1-second
polls of `while not self.connected and (time.time() - start) < timeout`:
`ack i` tells whether the `on_connect` callback has set `self.connected`
by poll `i`; with `timeout = 10` seconds there are `10 / 0.1 = 100`
polls, after which the current `connected` flag is returned.  A broker
rejection (`rc != 0`) never sets the flag, and neither does an absent
acknowledgment. -/
def connect (ack : ℕ → Bool) : Bool := (List.range 100).any ack

/-- `SensorSimulator.run_simulation`, interrupted after `n` complete
iterations: if `connect` failed the method returns immediately (no
status, no reading); otherwise it publishes one ONLINE status per device,
runs `n` iterations, and on the interrupt publishes one OFFLINE status
per device. -/
noncomputable def run_simulation (connected : Bool) (devices : List Device)
    (n : ℕ) (times : ℕ → ℝ) (tss : ℕ → String) (g : ℕ → ℝ) : List Msg :=
  if connected then
    (devices.map fun d => Msg.status d.id "ONLINE")
      ++ (run_ticks devices times tss g (List.range n) initState 0).1
      ++ (devices.map fun d => Msg.status d.id "OFFLINE")
  else []

end Sim0

namespace Sim1

/-- `SensorSimulator.get_time_factor` of `sensor_simulator1.py`
(line-identical to the other file). -/
noncomputable def get_time_factor (elapsed : ℝ) : ℝ :=
  floatMod (elapsed / 60) 24

/-- `simulate_dht22` of `sensor_simulator1.py`: same formulas as
`Sim0.simulate_dht22`, payload additionally carries `farmId = FARM_ID = 1`. -/
noncomputable def simulate_dht22 (st : SimState) (hour t_noise h_noise : ℝ)
    (device_id ts : String) : Payload :=
  let temp_variation := 5 * Real.sin ((hour - 6) * Real.pi / 12)
  let temperature := st.base_temperature + temp_variation + t_noise
  let humidity0 := st.base_humidity - temp_variation * 2 + h_noise
  let humidity := max 30 (min 95 humidity0)
  [("farmId", JsonVal.int 1),
   ("deviceId", JsonVal.str device_id),
   ("sensorType", JsonVal.str "DHT22"),
   ("temperature", JsonVal.num (pyRound2 temperature)),
   ("humidity", JsonVal.num (pyRound2 humidity)),
   ("timestamp", JsonVal.str ts)]

/-- `simulate_soil_moisture` of `sensor_simulator1.py`: same update as
`Sim0.simulate_soil_moisture`, payload additionally carries `farmId`. -/
noncomputable def simulate_soil_moisture (st : SimState)
    (device_id ts : String) (g : ℕ → ℝ) (k : ℕ) :
    Payload × SimState × ℕ :=
  let m1 := st.soil_moisture - g k
  let ek := if g (k + 1) < 0.02 then (m1 + g (k + 2), k + 3) else (m1, k + 2)
  let m3 := max 20 (min 70 ek.1)
  ([("farmId", JsonVal.int 1),
    ("deviceId", JsonVal.str device_id),
    ("sensorType", JsonVal.str "SOIL_MOISTURE"),
    ("soilMoisture", JsonVal.num (pyRound2 m3)),
    ("timestamp", JsonVal.str ts)],
   { st with soil_moisture := m3 }, ek.2)

/-- `simulate_light_sensor` of `sensor_simulator1.py`: same update as
`Sim0.simulate_light_sensor`, payload additionally carries `farmId`. -/
noncomputable def simulate_light_sensor (st : SimState) (hour : ℝ)
    (device_id ts : String) (noise : ℝ) : Payload × SimState :=
  let li :=
    if 6 ≤ hour ∧ hour ≤ 18 then
      50000 * Real.sin ((hour - 6) * Real.pi / 12) + noise
    else noise
  let li2 := max 0 li
  ([("farmId", JsonVal.int 1),
    ("deviceId", JsonVal.str device_id),
    ("sensorType", JsonVal.str "LIGHT"),
    ("lightIntensity", JsonVal.num (pyRound2 li2)),
    ("timestamp", JsonVal.str ts)],
   { st with light_intensity := li2 })

/-- `simulate_ph_sensor` of `sensor_simulator1.py` (the active,
uncommented definition): the measurement field is named `"soilPH"` and no
`farmId` is included. -/
noncomputable def simulate_ph_sensor (st : SimState)
    (device_id ts : String) (noise : ℝ) : Payload × SimState :=
  let ph1 := st.ph_level + noise
  let ph2 := max 5.5 (min 7.5 ph1)
  let ph_val := pyRound2 ph2
  ([("deviceId", JsonVal.str device_id),
    ("sensorType", JsonVal.str "PH"),
    ("soilPH", JsonVal.num ph_val),
    ("timestamp", JsonVal.str ts)],
   { st with ph_level := ph2 })

/-- The body of the per-device dispatch in `sensor_simulator1.py`'s
`run_simulation` loop: the same four sensor kinds; any other kind falls
through to `continue`, producing no payload and leaving the state and
the draw stream untouched. -/
noncomputable def step_device (st : SimState) (hour : ℝ) (g : ℕ → ℝ)
    (k : ℕ) (ts : String) (d : Device) :
    Option Payload × SimState × ℕ :=
  if d.type = "DHT22" then
    (some (simulate_dht22 st hour (g k) (g (k + 1)) d.id ts), st, k + 2)
  else if d.type = "SOIL_MOISTURE" then
    let r := simulate_soil_moisture st d.id ts g k
    (some r.1, r.2.1, r.2.2)
  else if d.type = "LIGHT" then
    let r := simulate_light_sensor st hour d.id ts (g k)
    (some r.1, r.2, k + 1)
  else if d.type = "PH" then
    let r := simulate_ph_sensor st d.id ts (g k)
    (some r.1, r.2, k + 1)
  else (none, st, k)

/-- One iteration of `sensor_simulator1.py`'s `while True` loop over the
device roster: produced readings are published on `sensor/{id}/data`. -/
noncomputable def tick (hour : ℝ) (g : ℕ → ℝ) (ts : String) :
    List Device → SimState → ℕ → List Msg × SimState × ℕ
  | [], st, k => ([], st, k)
  | d :: rest, st, k =>
    let r := step_device st hour g k ts d
    let more := tick hour g ts rest r.2.1 r.2.2
    ((r.1.map (Msg.data d.id)).toList ++ more.1, more.2.1, more.2.2)

/-- The iterations of `sensor_simulator1.py`'s loop that complete before
the `KeyboardInterrupt`; `times i` is the elapsed wall-clock time at
iteration `i`, `tss i` its timestamp string. -/
noncomputable def run_ticks (devices : List Device) (times : ℕ → ℝ)
    (tss : ℕ → String) (g : ℕ → ℝ) :
    List ℕ → SimState → ℕ → List Msg × SimState × ℕ
  | [], st, k => ([], st, k)
  | i :: rest, st, k =>
    let r := tick (get_time_factor (times i)) g (tss i) devices st k
    let more := run_ticks devices times tss g rest r.2.1 r.2.2
    (r.1 ++ more.1, more.2.1, more.2.2)

/-- `sensor_simulator1.py`'s `run_simulation`, interrupted after `n`
complete iterations: if `connect` failed the method returns immediately
(no status, no reading); otherwise one ONLINE status per device, `n`
iterations, and on the interrupt one OFFLINE status per device. -/
noncomputable def run_simulation (connected : Bool) (devices : List Device)
    (n : ℕ) (times : ℕ → ℝ) (tss : ℕ → String) (g : ℕ → ℝ) : List Msg :=
  if connected then
    (devices.map fun d => Msg.status d.id "ONLINE")
      ++ (run_ticks devices times tss g (List.range n) initState 0).1
      ++ (devices.map fun d => Msg.status d.id "OFFLINE")
  else []

end Sim1

/-- The concrete draw stream of the soil-moisture counterexample:
decay draw `0.15`, event draw `0.01` (the irrigation event fires), jump
draw `15`. -/
noncomputable def cexDraws : ℕ → ℝ :=
  fun i => if i = 0 then 0.15 else if i = 1 then 0.01 else 15

/-- A concrete admissible draw stream for a soil-moisture tick whose
irrigation event fires: decay draw `0.1`, event draw `0.5`, jump draw
`20`. -/
noncomputable def witDraws : ℕ → ℝ :=
  fun i => if i = 0 then 0.1 else if i = 1 then 0.5 else 20

/-- The device identifiers that were given status `s` in a message
trace, in publish order. -/
def statusIds (s : String) (msgs : List Msg) : List String :=
  msgs.filterMap fun m =>
    match m with
    | Msg.status d st => if st = s then some d else none
    | Msg.data _ _ => none

/-- The numeric value stored under `key` in a flat JSON object
(`0` when the field is absent or non-numeric). -/
noncomputable def numField (p : Payload) (key : String) : ℝ :=
  match getField p key with
  | some (JsonVal.num x) => x
  | _ => 0

/-- An acknowledgment stream in which the broker never acknowledges the
connection (timeout with no ack, or broker rejection `rc != 0`, which
never sets `self.connected`). -/
def noAck : ℕ → Bool := fun _ => false

/- ======================  theorems  ====================== -/

/-- A value clamped to `[lo, hi]` and then rounded to two decimals stays
in `[lo, hi]` whenever both endpoints are multiples of `1/100`. -/
theorem pyRound2_clamp_mem (lo hi : ℝ) {x : ℝ} (a b : ℤ)
    (ha : lo * 100 = (a : ℝ)) (hb : hi * 100 = (b : ℝ)) (hlh : lo ≤ hi) :
    lo ≤ pyRound2 (max lo (min hi x)) ∧ pyRound2 (max lo (min hi x)) ≤ hi :=
  ⟨le_pyRound2 lo a ha (le_max_left _ _),
   pyRound2_le hi b hb (max_le hlh (min_le_left _ _))⟩

/-- C1: for every tick and every device, each bounded measurement in a
published reading is inside its declared physical range — humidity in
[30,95], soil moisture in [20,70], pH in [5.5,7.5], light intensity ≥ 0 —
in both source files, because each bounded scalar is clamped to its range
before being rounded into the payload. -/
theorem c1_published_bounded_measurements
    (st : SimState) (hour t_noise h_noise lnoise pnoise : ℝ)
    (g : ℕ → ℝ) (k : ℕ) (device_id ts : String) :
    (∃ h, getField (Sim0.simulate_dht22 st hour t_noise h_noise device_id ts)
        "humidity" = some (JsonVal.num h) ∧ 30 ≤ h ∧ h ≤ 95) ∧
    (∃ m, getField (Sim0.simulate_soil_moisture st device_id ts g k).1
        "soilMoisture" = some (JsonVal.num m) ∧ 20 ≤ m ∧ m ≤ 70) ∧
    (∃ p, getField (Sim0.simulate_ph_sensor st device_id ts pnoise).1
        "ph" = some (JsonVal.num p) ∧ 5.5 ≤ p ∧ p ≤ 7.5) ∧
    (∃ l, getField (Sim0.simulate_light_sensor st hour device_id ts lnoise).1
        "lightIntensity" = some (JsonVal.num l) ∧ 0 ≤ l) ∧
    (∃ h, getField (Sim1.simulate_dht22 st hour t_noise h_noise device_id ts)
        "humidity" = some (JsonVal.num h) ∧ 30 ≤ h ∧ h ≤ 95) ∧
    (∃ m, getField (Sim1.simulate_soil_moisture st device_id ts g k).1
        "soilMoisture" = some (JsonVal.num m) ∧ 20 ≤ m ∧ m ≤ 70) ∧
    (∃ p, getField (Sim1.simulate_ph_sensor st device_id ts pnoise).1
        "soilPH" = some (JsonVal.num p) ∧ 5.5 ≤ p ∧ p ≤ 7.5) ∧
    (∃ l, getField (Sim1.simulate_light_sensor st hour device_id ts lnoise).1
        "lightIntensity" = some (JsonVal.num l) ∧ 0 ≤ l) := by
  refine ⟨⟨pyRound2 (max 30 (min 95 (st.base_humidity
              - 5 * Real.sin ((hour - 6) * Real.pi / 12) * 2 + h_noise))),
            by simp [Sim0.simulate_dht22, getField],
            pyRound2_clamp_mem 30 95 3000 9500 (by norm_num) (by norm_num)
              (by norm_num)⟩,
         ⟨pyRound2 (max 20 (min 70
              (if g (k + 1) < 0.02 then (st.soil_moisture - g k + g (k + 2), k + 3)
               else (st.soil_moisture - g k, k + 2)).1)),
            by simp [Sim0.simulate_soil_moisture, getField],
            pyRound2_clamp_mem 20 70 2000 7000 (by norm_num) (by norm_num)
              (by norm_num)⟩,
         ⟨pyRound2 (max 5.5 (min 7.5 (st.ph_level + pnoise))),
            by simp [Sim0.simulate_ph_sensor, getField],
            pyRound2_clamp_mem 5.5 7.5 550 750 (by norm_num) (by norm_num)
              (by norm_num)⟩,
         ⟨pyRound2 (max 0
              (if 6 ≤ hour ∧ hour ≤ 18 then
                50000 * Real.sin ((hour - 6) * Real.pi / 12) + lnoise
               else lnoise)),
            by simp [Sim0.simulate_light_sensor, getField],
            le_pyRound2 0 0 (by norm_num) (le_max_left _ _)⟩,
         ⟨pyRound2 (max 30 (min 95 (st.base_humidity
              - 5 * Real.sin ((hour - 6) * Real.pi / 12) * 2 + h_noise))),
            by simp [Sim1.simulate_dht22, getField],
            pyRound2_clamp_mem 30 95 3000 9500 (by norm_num) (by norm_num)
              (by norm_num)⟩,
         ⟨pyRound2 (max 20 (min 70
              (if g (k + 1) < 0.02 then (st.soil_moisture - g k + g (k + 2), k + 3)
               else (st.soil_moisture - g k, k + 2)).1)),
            by simp [Sim1.simulate_soil_moisture, getField],
            pyRound2_clamp_mem 20 70 2000 7000 (by norm_num) (by norm_num)
              (by norm_num)⟩,
         ⟨pyRound2 (max 5.5 (min 7.5 (st.ph_level + pnoise))),
            by simp [Sim1.simulate_ph_sensor, getField],
            pyRound2_clamp_mem 5.5 7.5 550 750 (by norm_num) (by norm_num)
              (by norm_num)⟩,
         ⟨pyRound2 (max 0
              (if 6 ≤ hour ∧ hour ≤ 18 then
                50000 * Real.sin ((hour - 6) * Real.pi / 12) + lnoise
               else lnoise)),
            by simp [Sim1.simulate_light_sensor, getField],
            le_pyRound2 0 0 (by norm_num) (le_max_left _ _)⟩⟩

/-- C2 (counterexample): with previous soil moisture 50 (the initial
state), decay draw 0.15, event draw 0.01 (so the irrigation event fires),
and jump draw 15 (all admissible), the stored soil-moisture value equals
the pre-clamp value (no clamping occurs), yet it increases by only
14.85 < 15 relative to the previous tick — refuting "strictly increases
by an amount in [15,25]". -/
theorem c2_soil_moisture_counterexample :
    (0.05 ≤ cexDraws 0 ∧ cexDraws 0 ≤ 0.15) ∧ cexDraws 1 < 0.02 ∧
    (15 ≤ cexDraws 2 ∧ cexDraws 2 ≤ 25) ∧
    (Sim0.simulate_soil_moisture initState "SOIL-001" "t0" cexDraws 0).2.1.soil_moisture
      = soil_moisture_preclamp initState.soil_moisture (cexDraws 0) (cexDraws 2) true ∧
    soil_moisture_preclamp initState.soil_moisture (cexDraws 0) (cexDraws 2) true
      - initState.soil_moisture < 15 := by
  refine ⟨⟨by norm_num [cexDraws], by norm_num [cexDraws]⟩,
          by norm_num [cexDraws], ⟨by norm_num [cexDraws], by norm_num [cexDraws]⟩,
          ?_, by norm_num [cexDraws, soil_moisture_preclamp, initState]⟩
  have hev : cexDraws 1 < 0.02 := by norm_num [cexDraws]
  simp only [Sim0.simulate_soil_moisture, soil_moisture_preclamp, if_pos hev,
    if_pos (rfl : true = true)]
  norm_num [cexDraws, initState, min_def, max_def]

/-- C2 (amended): in both source files, if no irrigation event fires the
stored soil-moisture value is non-increasing relative to the previous
tick (which is at least the clamp floor 20, as every reachable state
is); if the event fires, the pre-clamp value strictly increases relative
to the previous tick by `jump - decay`, an amount in [14.85, 24.95]
(jump in [15,25] minus decay in [0.05,0.15]), and the stored value is
that pre-clamp value clamped to [20,70]. -/
theorem c2_soil_moisture_tick_amended
    (st : SimState) (g : ℕ → ℝ) (k : ℕ) (device_id ts : String)
    (hprev : 20 ≤ st.soil_moisture)
    (hd1 : 0.05 ≤ g k) (hd2 : g k ≤ 0.15)
    (hj1 : 15 ≤ g (k + 2)) (hj2 : g (k + 2) ≤ 25) :
    (¬ g (k + 1) < 0.02 →
      (Sim0.simulate_soil_moisture st device_id ts g k).2.1.soil_moisture
        ≤ st.soil_moisture ∧
      (Sim1.simulate_soil_moisture st device_id ts g k).2.1.soil_moisture
        ≤ st.soil_moisture) ∧
    (g (k + 1) < 0.02 →
      st.soil_moisture
          < soil_moisture_preclamp st.soil_moisture (g k) (g (k + 2)) true ∧
      14.85 ≤ soil_moisture_preclamp st.soil_moisture (g k) (g (k + 2)) true
          - st.soil_moisture ∧
      soil_moisture_preclamp st.soil_moisture (g k) (g (k + 2)) true
          - st.soil_moisture ≤ 24.95 ∧
      (Sim0.simulate_soil_moisture st device_id ts g k).2.1.soil_moisture
        = max 20 (min 70
            (soil_moisture_preclamp st.soil_moisture (g k) (g (k + 2)) true)) ∧
      (Sim1.simulate_soil_moisture st device_id ts g k).2.1.soil_moisture
        = max 20 (min 70
            (soil_moisture_preclamp st.soil_moisture (g k) (g (k + 2)) true))) := by
  constructor
  · intro hc
    have hval0 : (Sim0.simulate_soil_moisture st device_id ts g k).2.1.soil_moisture
        = max 20 (min 70 (st.soil_moisture - g k)) := by
      simp [Sim0.simulate_soil_moisture, hc]
    have hval1 : (Sim1.simulate_soil_moisture st device_id ts g k).2.1.soil_moisture
        = max 20 (min 70 (st.soil_moisture - g k)) := by
      simp [Sim1.simulate_soil_moisture, hc]
    rw [hval0, hval1]
    exact ⟨max_le hprev (le_trans (min_le_right _ _) (by linarith)),
           max_le hprev (le_trans (min_le_right _ _) (by linarith))⟩
  · intro hc
    have hpre : soil_moisture_preclamp st.soil_moisture (g k) (g (k + 2)) true
        = st.soil_moisture - g k + g (k + 2) := by
      simp [soil_moisture_preclamp]
    refine ⟨by rw [hpre]; linarith, by rw [hpre]; linarith,
            by rw [hpre]; linarith, ?_, ?_⟩
    · simp [Sim0.simulate_soil_moisture, soil_moisture_preclamp, hc]
    · simp [Sim1.simulate_soil_moisture, soil_moisture_preclamp, hc]

/-- C2 (witness for the amended theorem): concrete admissible draws
`witDraws` (decay 0.1, event draw 0.5, jump 20). -/
theorem c2_soil_moisture_tick_amended_witness :
    (20 ≤ initState.soil_moisture ∧
     0.05 ≤ witDraws 0 ∧ witDraws 0 ≤ 0.15 ∧
     15 ≤ witDraws (0 + 2) ∧ witDraws (0 + 2) ≤ 25) ∧
    ((¬ witDraws (0 + 1) < 0.02 →
      (Sim0.simulate_soil_moisture initState "SOIL-001" "t0" witDraws 0).2.1.soil_moisture
        ≤ initState.soil_moisture ∧
      (Sim1.simulate_soil_moisture initState "SOIL-001" "t0" witDraws 0).2.1.soil_moisture
        ≤ initState.soil_moisture) ∧
    (witDraws (0 + 1) < 0.02 →
      initState.soil_moisture
          < soil_moisture_preclamp initState.soil_moisture (witDraws 0)
              (witDraws (0 + 2)) true ∧
      14.85 ≤ soil_moisture_preclamp initState.soil_moisture (witDraws 0)
              (witDraws (0 + 2)) true - initState.soil_moisture ∧
      soil_moisture_preclamp initState.soil_moisture (witDraws 0)
              (witDraws (0 + 2)) true - initState.soil_moisture ≤ 24.95 ∧
      (Sim0.simulate_soil_moisture initState "SOIL-001" "t0" witDraws 0).2.1.soil_moisture
        = max 20 (min 70
            (soil_moisture_preclamp initState.soil_moisture (witDraws 0)
              (witDraws (0 + 2)) true)) ∧
      (Sim1.simulate_soil_moisture initState "SOIL-001" "t0" witDraws 0).2.1.soil_moisture
        = max 20 (min 70
            (soil_moisture_preclamp initState.soil_moisture (witDraws 0)
              (witDraws (0 + 2)) true)))) :=
  ⟨⟨by norm_num [initState], by norm_num [witDraws], by norm_num [witDraws],
    by norm_num [witDraws], by norm_num [witDraws]⟩,
   c2_soil_moisture_tick_amended initState witDraws 0 "SOIL-001" "t0"
     (by norm_num [initState]) (by norm_num [witDraws]) (by norm_num [witDraws])
     (by norm_num [witDraws]) (by norm_num [witDraws])⟩

/-- C3 (counterexample): a PH reading published by
`sensor_simulator.py` has no `soilPH` field; its measurement is carried
under the field name `ph`. -/
theorem c3_ph_field_name_counterexample :
    getField (Sim0.simulate_ph_sensor initState "PH-001" "t0" 0).1 "soilPH"
      = none ∧
    (∃ x, getField (Sim0.simulate_ph_sensor initState "PH-001" "t0" 0).1 "ph"
      = some (JsonVal.num x)) :=
  ⟨by simp [Sim0.simulate_ph_sensor, getField],
   ⟨pyRound2 (max 5.5 (min 7.5 initState.ph_level)),
    by simp [Sim0.simulate_ph_sensor, getField]⟩⟩

/-- C3 (amended): PH readings from `sensor_simulator1.py` carry the
measurement under the wire field `soilPH`; PH readings from
`sensor_simulator.py` carry it under `ph` and have no `soilPH` field. -/
theorem c3_ph_field_name_amended
    (st : SimState) (device_id ts : String) (noise : ℝ) :
    (∃ x, getField (Sim1.simulate_ph_sensor st device_id ts noise).1 "soilPH"
        = some (JsonVal.num x)) ∧
    (∃ x, getField (Sim0.simulate_ph_sensor st device_id ts noise).1 "ph"
        = some (JsonVal.num x)) ∧
    getField (Sim0.simulate_ph_sensor st device_id ts noise).1 "soilPH"
        = none :=
  ⟨⟨pyRound2 (max 5.5 (min 7.5 (st.ph_level + noise))),
    by simp [Sim1.simulate_ph_sensor, getField]⟩,
   ⟨pyRound2 (max 5.5 (min 7.5 (st.ph_level + noise))),
    by simp [Sim0.simulate_ph_sensor, getField]⟩,
   by simp [Sim0.simulate_ph_sensor, getField]⟩

/-- C4: with all admissible noise draws, the published light-intensity
reading at simulated hour 12 (noon, daytime branch with the sine factor
at its peak) is strictly greater than the published reading at simulated
hour 0 (midnight, nighttime branch bounded by 100), in both source
files; a fortiori the claim holds in expectation over the noise draws. -/
theorem c4_noon_brighter_than_midnight
    (st st' : SimState) (u v : ℝ) (device_id device_id' ts ts' : String)
    (hu1 : -2000 ≤ u) (hu2 : u ≤ 2000) (hv1 : 0 ≤ v) (hv2 : v ≤ 100) :
    (getField (Sim0.simulate_light_sensor st 12 device_id ts u).1
        "lightIntensity"
      = some (JsonVal.num (numField
          (Sim0.simulate_light_sensor st 12 device_id ts u).1
          "lightIntensity")) ∧
     getField (Sim0.simulate_light_sensor st' 0 device_id' ts' v).1
        "lightIntensity"
      = some (JsonVal.num (numField
          (Sim0.simulate_light_sensor st' 0 device_id' ts' v).1
          "lightIntensity")) ∧
     numField (Sim0.simulate_light_sensor st' 0 device_id' ts' v).1
        "lightIntensity"
      < numField (Sim0.simulate_light_sensor st 12 device_id ts u).1
        "lightIntensity") ∧
    (getField (Sim1.simulate_light_sensor st 12 device_id ts u).1
        "lightIntensity"
      = some (JsonVal.num (numField
          (Sim1.simulate_light_sensor st 12 device_id ts u).1
          "lightIntensity")) ∧
     getField (Sim1.simulate_light_sensor st' 0 device_id' ts' v).1
        "lightIntensity"
      = some (JsonVal.num (numField
          (Sim1.simulate_light_sensor st' 0 device_id' ts' v).1
          "lightIntensity")) ∧
     numField (Sim1.simulate_light_sensor st' 0 device_id' ts' v).1
        "lightIntensity"
      < numField (Sim1.simulate_light_sensor st 12 device_id ts u).1
        "lightIntensity") := by
  have e12 : numField (Sim0.simulate_light_sensor st 12 device_id ts u).1
      "lightIntensity"
      = pyRound2 (max 0
          (if (6 : ℝ) ≤ 12 ∧ (12 : ℝ) ≤ 18 then
            50000 * Real.sin (((12 : ℝ) - 6) * Real.pi / 12) + u
           else u)) := by
    simp [numField, Sim0.simulate_light_sensor, getField]
  have e0 : numField (Sim0.simulate_light_sensor st' 0 device_id' ts' v).1
      "lightIntensity"
      = pyRound2 (max 0
          (if (6 : ℝ) ≤ 0 ∧ (0 : ℝ) ≤ 18 then
            50000 * Real.sin (((0 : ℝ) - 6) * Real.pi / 12) + v
           else v)) := by
    simp [numField, Sim0.simulate_light_sensor, getField]
  have e12' : numField (Sim1.simulate_light_sensor st 12 device_id ts u).1
      "lightIntensity"
      = pyRound2 (max 0
          (if (6 : ℝ) ≤ 12 ∧ (12 : ℝ) ≤ 18 then
            50000 * Real.sin (((12 : ℝ) - 6) * Real.pi / 12) + u
           else u)) := by
    simp [numField, Sim1.simulate_light_sensor, getField]
  have e0' : numField (Sim1.simulate_light_sensor st' 0 device_id' ts' v).1
      "lightIntensity"
      = pyRound2 (max 0
          (if (6 : ℝ) ≤ 0 ∧ (0 : ℝ) ≤ 18 then
            50000 * Real.sin (((0 : ℝ) - 6) * Real.pi / 12) + v
           else v)) := by
    simp [numField, Sim1.simulate_light_sensor, getField]
  have h12 : (48000 : ℝ) ≤ max 0
      (if (6 : ℝ) ≤ 12 ∧ (12 : ℝ) ≤ 18 then
        50000 * Real.sin (((12 : ℝ) - 6) * Real.pi / 12) + u
       else u) := by
    rw [if_pos (by norm_num : (6 : ℝ) ≤ 12 ∧ (12 : ℝ) ≤ 18)]
    have hsin : Real.sin (((12 : ℝ) - 6) * Real.pi / 12) = 1 := by
      rw [show ((12 : ℝ) - 6) * Real.pi / 12 = Real.pi / 2 by ring,
        Real.sin_pi_div_two]
    rw [hsin]
    exact le_trans (by linarith) (le_max_right _ _)
  have h0 : max 0
      (if (6 : ℝ) ≤ 0 ∧ (0 : ℝ) ≤ 18 then
        50000 * Real.sin (((0 : ℝ) - 6) * Real.pi / 12) + v
       else v) ≤ 100 := by
    rw [if_neg (by norm_num : ¬((6 : ℝ) ≤ 0 ∧ (0 : ℝ) ≤ 18))]
    exact max_le (by norm_num) hv2
  have hx := le_pyRound2 48000 4800000 (by norm_num) h12
  have hy := pyRound2_le 100 10000 (by norm_num) h0
  refine ⟨⟨by simp [numField, Sim0.simulate_light_sensor, getField],
           by simp [numField, Sim0.simulate_light_sensor, getField], ?_⟩,
          ⟨by simp [numField, Sim1.simulate_light_sensor, getField],
           by simp [numField, Sim1.simulate_light_sensor, getField], ?_⟩⟩
  · rw [e12, e0]
    linarith
  · rw [e12', e0']
    linarith

/-- C4 (witness): concrete noise draws 0 and 0, both source files. -/
theorem c4_noon_brighter_than_midnight_witness :
    ((-2000 : ℝ) ≤ 0 ∧ (0 : ℝ) ≤ 2000 ∧ (0 : ℝ) ≤ 0 ∧ (0 : ℝ) ≤ 100) ∧
    (numField (Sim0.simulate_light_sensor initState 0 "LIGHT-001" "t0" 0).1
        "lightIntensity"
      < numField (Sim0.simulate_light_sensor initState 12 "LIGHT-001" "t0" 0).1
        "lightIntensity") ∧
    (numField (Sim1.simulate_light_sensor initState 0 "LIGHT-001" "t0" 0).1
        "lightIntensity"
      < numField (Sim1.simulate_light_sensor initState 12 "LIGHT-001" "t0" 0).1
        "lightIntensity") :=
  ⟨⟨by norm_num, by norm_num, le_refl 0, by norm_num⟩,
   (c4_noon_brighter_than_midnight initState initState 0 0 "LIGHT-001"
      "LIGHT-001" "t0" "t0" (by norm_num) (by norm_num) (le_refl 0)
      (by norm_num)).1.2.2,
   (c4_noon_brighter_than_midnight initState initState 0 0 "LIGHT-001"
      "LIGHT-001" "t0" "t0" (by norm_num) (by norm_num) (le_refl 0)
      (by norm_num)).2.2.2⟩

/-- C5: the simulated hour-of-day is `(t / 60) mod 24` for the elapsed
wall-clock time `t` in seconds (identically in both source files); it is
periodic with period 1440 seconds = 24 minutes, always lies in [0, 24),
and after `60 * h` seconds (`h` minutes, `0 ≤ h < 24`) it equals `h` — so
24 minutes of real time correspond to exactly 24 simulated hours. -/
theorem c5_simulated_hour (t h : ℝ) (h0 : 0 ≤ h) (h24 : h < 24) :
    Sim0.get_time_factor t = floatMod (t / 60) 24 ∧
    Sim1.get_time_factor t = Sim0.get_time_factor t ∧
    Sim0.get_time_factor (t + 1440) = Sim0.get_time_factor t ∧
    0 ≤ Sim0.get_time_factor t ∧ Sim0.get_time_factor t < 24 ∧
    Sim0.get_time_factor (60 * h) = h := by
  have key : ∀ x : ℝ, floatMod x 24 = 24 * Int.fract (x / 24) := by
    intro x
    rw [floatMod, ← Int.self_sub_floor]
    ring
  refine ⟨rfl, rfl, ?_, ?_, ?_, ?_⟩
  · rw [Sim0.get_time_factor, Sim0.get_time_factor, floatMod, floatMod]
    rw [show (t + 1440) / 60 = t / 60 + 24 by ring]
    rw [show (t / 60 + 24) / 24 = t / 60 / 24 + 1 by ring, Int.floor_add_one]
    push_cast
    ring
  · rw [Sim0.get_time_factor, key]
    have := Int.fract_nonneg (t / 60 / 24)
    linarith
  · rw [Sim0.get_time_factor, key]
    have := Int.fract_lt_one (t / 60 / 24)
    linarith
  · rw [Sim0.get_time_factor, show 60 * h / 60 = h by ring, floatMod]
    have hfl : ⌊h / 24⌋ = 0 := by
      rw [Int.floor_eq_zero_iff]
      exact Set.mem_Ico.mpr ⟨by positivity,
        by rw [div_lt_one (by norm_num)]; exact h24⟩
    rw [hfl]
    norm_num

/-- C5 (witness): elapsed time 0, simulated hour 3. -/
theorem c5_simulated_hour_witness :
    ((0 : ℝ) ≤ 3 ∧ (3 : ℝ) < 24) ∧
    (Sim0.get_time_factor 0 = floatMod (0 / 60) 24 ∧
     Sim1.get_time_factor 0 = Sim0.get_time_factor 0 ∧
     Sim0.get_time_factor (0 + 1440) = Sim0.get_time_factor 0 ∧
     0 ≤ Sim0.get_time_factor 0 ∧ Sim0.get_time_factor 0 < 24 ∧
     Sim0.get_time_factor (60 * 3) = 3) :=
  ⟨⟨by norm_num, by norm_num⟩, c5_simulated_hour 0 3 (by norm_num) (by norm_num)⟩

/-- C9: in both source files, processing a DHT22 device mutates no
simulation-state field (the resulting state is the incoming state), and
the produced payload does not depend on the mutable scalars
`soil_moisture`, `light_intensity`, `ph_level` — only on the simulated
hour, the fresh noise draws, and the never-mutated base constants. -/
theorem c9_dht22_frame (st : SimState) (hour : ℝ) (g : ℕ → ℝ) (k : ℕ)
    (ts : String) (d : Device) (a b c : ℝ) (hd : d.type = "DHT22") :
    (Sim0.step_device st hour g k ts d).2.1 = st ∧
    (Sim0.step_device
        { st with soil_moisture := a, light_intensity := b, ph_level := c }
        hour g k ts d).1
      = (Sim0.step_device st hour g k ts d).1 ∧
    (Sim1.step_device st hour g k ts d).2.1 = st ∧
    (Sim1.step_device
        { st with soil_moisture := a, light_intensity := b, ph_level := c }
        hour g k ts d).1
      = (Sim1.step_device st hour g k ts d).1 := by
  refine ⟨?_, ?_, ?_, ?_⟩
  · simp [Sim0.step_device, hd]
  · simp [Sim0.step_device, hd, Sim0.simulate_dht22]
  · simp [Sim1.step_device, hd]
  · simp [Sim1.step_device, hd, Sim1.simulate_dht22]

/-- C9 (witness): a concrete DHT22 device and state, both source files. -/
theorem c9_dht22_frame_witness :
    (Device.type ⟨"DHT22-001", "DHT22", "Garden A"⟩ = "DHT22") ∧
    ((Sim0.step_device initState 0 (fun _ => 0) 0 "t0"
        ⟨"DHT22-001", "DHT22", "Garden A"⟩).2.1 = initState ∧
     (Sim0.step_device
        { initState with soil_moisture := 1, light_intensity := 2, ph_level := 3 }
        0 (fun _ => 0) 0 "t0" ⟨"DHT22-001", "DHT22", "Garden A"⟩).1
      = (Sim0.step_device initState 0 (fun _ => 0) 0 "t0"
          ⟨"DHT22-001", "DHT22", "Garden A"⟩).1 ∧
     (Sim1.step_device initState 0 (fun _ => 0) 0 "t0"
        ⟨"DHT22-001", "DHT22", "Garden A"⟩).2.1 = initState ∧
     (Sim1.step_device
        { initState with soil_moisture := 1, light_intensity := 2, ph_level := 3 }
        0 (fun _ => 0) 0 "t0" ⟨"DHT22-001", "DHT22", "Garden A"⟩).1
      = (Sim1.step_device initState 0 (fun _ => 0) 0 "t0"
          ⟨"DHT22-001", "DHT22", "Garden A"⟩).1) :=
  ⟨rfl, c9_dht22_frame initState 0 (fun _ => 0) 0 "t0"
    ⟨"DHT22-001", "DHT22", "Garden A"⟩ 1 2 3 rfl⟩

/-- C10: for every simulated hour and every admissible temperature noise
draw (`uniform(-1, 1)`), the published DHT22 temperature lies in
[22, 34] in both source files: base 28 plus a sinusoidal term of
amplitude 5 plus the noise. -/
theorem c10_temperature_bounds (st : SimState) (hour t_noise h_noise : ℝ)
    (device_id ts : String) (hb : st.base_temperature = 28)
    (hn1 : -1 ≤ t_noise) (hn2 : t_noise ≤ 1) :
    (getField (Sim0.simulate_dht22 st hour t_noise h_noise device_id ts)
        "temperature"
      = some (JsonVal.num (numField
          (Sim0.simulate_dht22 st hour t_noise h_noise device_id ts)
          "temperature")) ∧
     22 ≤ numField (Sim0.simulate_dht22 st hour t_noise h_noise device_id ts)
        "temperature" ∧
     numField (Sim0.simulate_dht22 st hour t_noise h_noise device_id ts)
        "temperature" ≤ 34) ∧
    (getField (Sim1.simulate_dht22 st hour t_noise h_noise device_id ts)
        "temperature"
      = some (JsonVal.num (numField
          (Sim1.simulate_dht22 st hour t_noise h_noise device_id ts)
          "temperature")) ∧
     22 ≤ numField (Sim1.simulate_dht22 st hour t_noise h_noise device_id ts)
        "temperature" ∧
     numField (Sim1.simulate_dht22 st hour t_noise h_noise device_id ts)
        "temperature" ≤ 34) := by
  have e : numField (Sim0.simulate_dht22 st hour t_noise h_noise device_id ts)
      "temperature"
      = pyRound2 (st.base_temperature
          + 5 * Real.sin ((hour - 6) * Real.pi / 12) + t_noise) := by
    simp [numField, Sim0.simulate_dht22, getField]
  have e' : numField (Sim1.simulate_dht22 st hour t_noise h_noise device_id ts)
      "temperature"
      = pyRound2 (st.base_temperature
          + 5 * Real.sin ((hour - 6) * Real.pi / 12) + t_noise) := by
    simp [numField, Sim1.simulate_dht22, getField]
  have hs1 := Real.neg_one_le_sin ((hour - 6) * Real.pi / 12)
  have hs2 := Real.sin_le_one ((hour - 6) * Real.pi / 12)
  refine ⟨⟨by simp [numField, Sim0.simulate_dht22, getField], ?_, ?_⟩,
          ⟨by simp [numField, Sim1.simulate_dht22, getField], ?_, ?_⟩⟩
  · rw [e]
    exact le_pyRound2 22 2200 (by norm_num) (by rw [hb]; linarith)
  · rw [e]
    exact pyRound2_le 34 3400 (by norm_num) (by rw [hb]; linarith)
  · rw [e']
    exact le_pyRound2 22 2200 (by norm_num) (by rw [hb]; linarith)
  · rw [e']
    exact pyRound2_le 34 3400 (by norm_num) (by rw [hb]; linarith)

/-- C10 (witness): the initial state, hour 0, noise 0, both files. -/
theorem c10_temperature_bounds_witness :
    (initState.base_temperature = 28 ∧ (-1 : ℝ) ≤ 0 ∧ (0 : ℝ) ≤ 1) ∧
    (22 ≤ numField (Sim0.simulate_dht22 initState 0 0 0 "DHT22-001" "t0")
        "temperature" ∧
     numField (Sim0.simulate_dht22 initState 0 0 0 "DHT22-001" "t0")
        "temperature" ≤ 34) ∧
    (22 ≤ numField (Sim1.simulate_dht22 initState 0 0 0 "DHT22-001" "t0")
        "temperature" ∧
     numField (Sim1.simulate_dht22 initState 0 0 0 "DHT22-001" "t0")
        "temperature" ≤ 34) :=
  ⟨⟨by norm_num [initState], by norm_num, by norm_num⟩,
   ⟨(c10_temperature_bounds initState 0 0 0 "DHT22-001" "t0"
      (by norm_num [initState]) (by norm_num) (by norm_num)).1.2.1,
    (c10_temperature_bounds initState 0 0 0 "DHT22-001" "t0"
      (by norm_num [initState]) (by norm_num) (by norm_num)).1.2.2⟩,
   ⟨(c10_temperature_bounds initState 0 0 0 "DHT22-001" "t0"
      (by norm_num [initState]) (by norm_num) (by norm_num)).2.2.1,
    (c10_temperature_bounds initState 0 0 0 "DHT22-001" "t0"
      (by norm_num [initState]) (by norm_num) (by norm_num)).2.2.2⟩⟩

theorem statusIds_append (s : String) (a b : List Msg) :
    statusIds s (a ++ b) = statusIds s a ++ statusIds s b := by
  simp [statusIds]

theorem statusIds_tick (s : String) (hour : ℝ) (g : ℕ → ℝ) (ts : String) :
    ∀ (devs : List Device) (st : SimState) (k : ℕ),
      statusIds s (Sim0.tick hour g ts devs st k).1 = [] := by
  intro devs
  induction devs with
  | nil => intro st k; simp [Sim0.tick, statusIds]
  | cons d rest ih =>
    intro st k
    have hmsgs : (Sim0.tick hour g ts (d :: rest) st k).1
        = (Option.map (Msg.data d.id) (Sim0.step_device st hour g k ts d).1).toList
          ++ (Sim0.tick hour g ts rest (Sim0.step_device st hour g k ts d).2.1
              (Sim0.step_device st hour g k ts d).2.2).1 := by
      simp [Sim0.tick]
    rw [hmsgs, statusIds_append, ih]
    cases hp : (Sim0.step_device st hour g k ts d).1 <;> simp [hp, statusIds]

theorem statusIds_run_ticks (s : String) (devices : List Device)
    (times : ℕ → ℝ) (tss : ℕ → String) (g : ℕ → ℝ) :
    ∀ (idxs : List ℕ) (st : SimState) (k : ℕ),
      statusIds s (Sim0.run_ticks devices times tss g idxs st k).1 = [] := by
  intro idxs
  induction idxs with
  | nil => intro st k; simp [Sim0.run_ticks, statusIds]
  | cons i rest ih =>
    intro st k
    simp [Sim0.run_ticks, statusIds_append, statusIds_tick, ih]

theorem statusIds_tick1 (s : String) (hour : ℝ) (g : ℕ → ℝ) (ts : String) :
    ∀ (devs : List Device) (st : SimState) (k : ℕ),
      statusIds s (Sim1.tick hour g ts devs st k).1 = [] := by
  intro devs
  induction devs with
  | nil => intro st k; simp [Sim1.tick, statusIds]
  | cons d rest ih =>
    intro st k
    have hmsgs : (Sim1.tick hour g ts (d :: rest) st k).1
        = (Option.map (Msg.data d.id) (Sim1.step_device st hour g k ts d).1).toList
          ++ (Sim1.tick hour g ts rest (Sim1.step_device st hour g k ts d).2.1
              (Sim1.step_device st hour g k ts d).2.2).1 := by
      simp [Sim1.tick]
    rw [hmsgs, statusIds_append, ih]
    cases hp : (Sim1.step_device st hour g k ts d).1 <;> simp [hp, statusIds]

theorem statusIds_run_ticks1 (s : String) (devices : List Device)
    (times : ℕ → ℝ) (tss : ℕ → String) (g : ℕ → ℝ) :
    ∀ (idxs : List ℕ) (st : SimState) (k : ℕ),
      statusIds s (Sim1.run_ticks devices times tss g idxs st k).1 = [] := by
  intro idxs
  induction idxs with
  | nil => intro st k; simp [Sim1.run_ticks, statusIds]
  | cons i rest ih =>
    intro st k
    simp [Sim1.run_ticks, statusIds_append, statusIds_tick1, ih]

theorem statusIds_map_status (s t : String) (devices : List Device) :
    statusIds s (devices.map fun d => Msg.status d.id t)
      = if t = s then devices.map fun d => d.id else [] := by
  induction devices with
  | nil => simp [statusIds]
  | cons d rest ih =>
    by_cases h : t = s <;>
      simp [statusIds, List.filterMap_cons, h] at ih ⊢ <;> exact ih

/-- C6: in both source files, when `run_simulation` is interrupted after
`n ≥ 0` completed iterations, the sequence of device ids given OFFLINE
status equals the device roster's ids — so exactly one OFFLINE status
per configured device, matching (even as a multiset) the ids given
ONLINE status at startup. -/
theorem c6_offline_matches_online (devices : List Device) (n : ℕ)
    (times : ℕ → ℝ) (tss : ℕ → String) (g : ℕ → ℝ) :
    (statusIds "OFFLINE" (Sim0.run_simulation true devices n times tss g)
      = devices.map (fun d => d.id) ∧
     statusIds "ONLINE" (Sim0.run_simulation true devices n times tss g)
      = devices.map (fun d => d.id)) ∧
    (statusIds "OFFLINE" (Sim1.run_simulation true devices n times tss g)
      = devices.map (fun d => d.id) ∧
     statusIds "ONLINE" (Sim1.run_simulation true devices n times tss g)
      = devices.map (fun d => d.id)) := by
  refine ⟨⟨?_, ?_⟩, ⟨?_, ?_⟩⟩
  · simp [Sim0.run_simulation, statusIds_append, statusIds_map_status,
      statusIds_run_ticks]
  · simp [Sim0.run_simulation, statusIds_append, statusIds_map_status,
      statusIds_run_ticks]
  · simp [Sim1.run_simulation, statusIds_append, statusIds_map_status,
      statusIds_run_ticks1]
  · simp [Sim1.run_simulation, statusIds_append, statusIds_map_status,
      statusIds_run_ticks1]

/-- A device whose sensor kind is none of the four dispatch cases hits
the `continue` branch in `sensor_simulator.py`: no reading, no state
change, no draws consumed. -/
theorem step_device_unknown {d : Device}
    (h : d.type ∉ (["DHT22", "SOIL_MOISTURE", "LIGHT", "PH"] : List String)) :
    ∀ (st : SimState) (hour : ℝ) (g : ℕ → ℝ) (k : ℕ) (ts : String),
      Sim0.step_device st hour g k ts d = (none, st, k) := by
  intro st hour g k ts
  simp only [List.mem_cons, List.mem_singleton, not_or] at h
  obtain ⟨h1, h2, h3, h4, -⟩ := h
  simp [Sim0.step_device, h1, h2, h3, h4]

/-- A device whose sensor kind is none of the four dispatch cases hits
the `continue` branch in `sensor_simulator1.py`: no reading, no state
change, no draws consumed. -/
theorem step_device_unknown1 {d : Device}
    (h : d.type ∉ (["DHT22", "SOIL_MOISTURE", "LIGHT", "PH"] : List String)) :
    ∀ (st : SimState) (hour : ℝ) (g : ℕ → ℝ) (k : ℕ) (ts : String),
      Sim1.step_device st hour g k ts d = (none, st, k) := by
  intro st hour g k ts
  simp only [List.mem_cons, List.mem_singleton, not_or] at h
  obtain ⟨h1, h2, h3, h4, -⟩ := h
  simp [Sim1.step_device, h1, h2, h3, h4]

theorem tick_skip_unknown0 (d : Device)
    (h : d.type ∉ (["DHT22", "SOIL_MOISTURE", "LIGHT", "PH"] : List String))
    (pre post : List Device) (hour : ℝ) (g : ℕ → ℝ) (ts : String)
    (st : SimState) (k : ℕ) :
    Sim0.tick hour g ts (pre ++ d :: post) st k
      = Sim0.tick hour g ts (pre ++ post) st k := by
  induction pre generalizing st k with
  | nil => simp [Sim0.tick, step_device_unknown h]
  | cons a pre ih =>
    have e1 : (a :: pre) ++ d :: post = a :: (pre ++ d :: post) := rfl
    have e2 : (a :: pre) ++ post = a :: (pre ++ post) := rfl
    rw [e1, e2]
    simp only [Sim0.tick]
    rw [ih]

theorem tick_skip_unknown1 (d : Device)
    (h : d.type ∉ (["DHT22", "SOIL_MOISTURE", "LIGHT", "PH"] : List String))
    (pre post : List Device) (hour : ℝ) (g : ℕ → ℝ) (ts : String)
    (st : SimState) (k : ℕ) :
    Sim1.tick hour g ts (pre ++ d :: post) st k
      = Sim1.tick hour g ts (pre ++ post) st k := by
  induction pre generalizing st k with
  | nil => simp [Sim1.tick, step_device_unknown1 h]
  | cons a pre ih =>
    have e1 : (a :: pre) ++ d :: post = a :: (pre ++ d :: post) := rfl
    have e2 : (a :: pre) ++ post = a :: (pre ++ post) := rfl
    rw [e1, e2]
    simp only [Sim1.tick]
    rw [ih]

/-- C7: in both source files, a configured device with an unknown sensor
kind produces no reading and no publish during a tick, and the tick
treats the remaining devices exactly as if the unknown device were
absent. -/
theorem c7_unknown_kind_skipped (d : Device)
    (h : d.type ∉ (["DHT22", "SOIL_MOISTURE", "LIGHT", "PH"] : List String))
    (pre post : List Device) (hour : ℝ) (g : ℕ → ℝ) (ts : String)
    (st : SimState) (k : ℕ) :
    Sim0.tick hour g ts (pre ++ d :: post) st k
      = Sim0.tick hour g ts (pre ++ post) st k ∧
    Sim1.tick hour g ts (pre ++ d :: post) st k
      = Sim1.tick hour g ts (pre ++ post) st k :=
  ⟨tick_skip_unknown0 d h pre post hour g ts st k,
   tick_skip_unknown1 d h pre post hour g ts st k⟩

/-- C7 (witness): a device of unknown kind "FOO" in an otherwise empty
roster, both source files. -/
theorem c7_unknown_kind_skipped_witness :
    (Device.type ⟨"X-001", "FOO", "Garden A"⟩
        ∉ (["DHT22", "SOIL_MOISTURE", "LIGHT", "PH"] : List String)) ∧
    (Sim0.tick 0 (fun _ => 0) "t0" ([] ++ ⟨"X-001", "FOO", "Garden A"⟩ :: []) initState 0
      = Sim0.tick 0 (fun _ => 0) "t0" ([] ++ []) initState 0 ∧
     Sim1.tick 0 (fun _ => 0) "t0" ([] ++ ⟨"X-001", "FOO", "Garden A"⟩ :: []) initState 0
      = Sim1.tick 0 (fun _ => 0) "t0" ([] ++ []) initState 0) :=
  ⟨by decide,
   c7_unknown_kind_skipped ⟨"X-001", "FOO", "Garden A"⟩ (by decide) [] [] 0
     (fun _ => 0) "t0" initState 0⟩

/-- C8: if the broker never acknowledges the connection within the
timeout window (including a broker rejection, which never sets the
connected flag), `connect` returns failure; and when `connect` has
returned failure, `run_simulation` returns at once, publishing no status
and no reading and never entering the tick loop. -/
theorem c8_connect_failure_no_publish (ack : ℕ → Bool) (hack : ack = noAck)
    (devices : List Device) (n : ℕ) (times : ℕ → ℝ) (tss : ℕ → String)
    (g : ℕ → ℝ) :
    Sim0.connect ack = false ∧
    Sim0.run_simulation false devices n times tss g = [] := by
  subst hack
  exact ⟨rfl, rfl⟩

/-- C8 (witness): the never-acknowledging broker and an arbitrary
concrete roster. -/
theorem c8_connect_failure_no_publish_witness :
    (noAck = noAck) ∧
    (Sim0.connect noAck = false ∧
     Sim0.run_simulation false [] 0 (fun _ => 0) (fun _ => "t0") (fun _ => 0)
       = []) :=
  ⟨rfl, c8_connect_failure_no_publish noAck rfl [] 0 (fun _ => 0)
    (fun _ => "t0") (fun _ => 0)⟩

end SmartFarm
